import Mathlib

/-!
# Verification of the iCloud hide-my-email alias generator

Shallow embedding of `src/main.py` (class `RichHideMyEmail`): the two-phase
lifecycle worker `_generate_one` (lines 37-76), the batch scheduler
`_generate` (lines 78-84), the poll loop `generate` (lines 106-120), the
lister `list` (lines 122-164) and the constructor's cookie loading
(lines 28-35).

Remote responses are JSON values.  We model them with the inductive `JVal`
below; a Python `dict` envelope is an association list `Env` of string keys
(Python dicts have unique keys, so first-match lookup is faithful).  A remote
call that returns no response object is `Option.none`.  Python exceptions
(`KeyError`, `TypeError`, `IndexError`) are modelled with `Except PyErr`.
-/

namespace HideMyEmail

/-- A JSON value as produced by the remote service and handled by the Python
code.  Floats do not occur in any code path the claims touch and are omitted. -/
inductive JVal where
  | null
  | bool (b : Bool)
  | int (n : Int)
  | str (s : String)
  | arr (elems : List JVal)
  | obj (fields : List (String × JVal))

/-- A Python dict envelope: association list with unique keys. -/
abbrev Env := List (String × JVal)

/-- Python exceptions raised by the code paths we model. -/
inductive PyErr where
  | keyError (k : String)
  | typeError
  | indexError
deriving DecidableEq, Repr

/-- Python dict key lookup (`k in d` / `d[k]`), first match. -/
def getKey : Env → String → Option JVal
  | [], _ => none
  | (k, v) :: rest, key => if k = key then some v else getKey rest key

/-- Python truthiness of a JSON value (`if not x`, `if x`):
`None`, `False`, `0`, `""`, `[]`, `{}` are falsy. -/
def truthy : JVal → Bool
  | .null => false
  | .bool b => b
  | .int n => n != 0
  | .str s => s != ""
  | .arr elems => !elems.isEmpty
  | .obj fields => !fields.isEmpty

/-- `d[k]` on an arbitrary JSON value: key lookup on a dict raises
`KeyError` when the key is missing; subscripting any other JSON value with a
string key raises `TypeError`. -/
def objGet : JVal → String → Except PyErr JVal
  | .obj fields, k =>
    match getKey fields k with
    | some v => .ok v
    | none => .error (.keyError k)
  | _, _ => .error .typeError

/-- The envelope test `"success" not in res or not res["success"]`
(lines 43, 63 and 129 of `main.py`). -/
def successFails (g : Env) : Bool :=
  match getKey g "success" with
  | none => true
  | some v => !truthy v

/-- `type(error) == int` (exact type check: Python booleans are not ints
under `type(..) ==`). -/
def isPyInt : JVal → Bool
  | .int _ => true
  | _ => false

/-- `type(error) == dict`. -/
def isPyDict : JVal → Bool
  | .obj _ => true
  | _ => false

/-- Error-message extraction at the create site, `main.py` lines 44-49:
`error = res["error"] if "error" in res else {}`; if `error` is an int and a
sibling `reason` key exists the message is `res["reason"]`; else if `error`
is a dict containing `errorMessage` the message is that field; otherwise the
literal `"Unknown"`. -/
def gen_err_msg (g : Env) : JVal :=
  let error := (getKey g "error").getD (.obj [])
  if isPyInt error && (getKey g "reason").isSome then
    (getKey g "reason").getD (.str "Unknown")
  else if isPyDict error then
    match error with
    | .obj fields =>
      match getKey fields "errorMessage" with
      | some m => m
      | none => .str "Unknown"
    | _ => .str "Unknown"
  else .str "Unknown"

/-- The identical extraction at the reserve site, `main.py` lines 63-69. -/
def reserve_err_msg (g : Env) : JVal :=
  let error := (getKey g "error").getD (.obj [])
  if isPyInt error && (getKey g "reason").isSome then
    (getKey g "reason").getD (.str "Unknown")
  else if isPyDict error then
    match error with
    | .obj fields =>
      match getKey fields "errorMessage" with
      | some m => m
      | none => .str "Unknown"
    | _ => .str "Unknown"
  else .str "Unknown"

/-- The identical extraction at the list site, `main.py` lines 130-135. -/
def list_err_msg (g : Env) : JVal :=
  let error := (getKey g "error").getD (.obj [])
  if isPyInt error && (getKey g "reason").isSome then
    (getKey g "reason").getD (.str "Unknown")
  else if isPyDict error then
    match error with
    | .obj fields =>
      match getKey fields "errorMessage" with
      | some m => m
      | none => .str "Unknown"
    | _ => .str "Unknown"
  else .str "Unknown"

/-- Remote calls issued by a lifecycle worker, in order. -/
inductive RemoteCall where
  | create
  | reserve (email : JVal)

/-- Console log events emitted by the worker and the lister (the rich markup
and fixed prose of each log line are constant; we record the dynamic data). -/
inductive LogEvent where
  | genFailed (msg : JVal)
  | genOk (email : JVal)
  | reserveFailed (email : JVal) (msg : JVal)
  | reserveOk (email : JVal)
  | listFailed (msg : JVal)

/-- Result of one run of the lifecycle worker `_generate_one`:
the remote calls it issued, the log lines it emitted, and its return value
(`Option JVal`) or the Python exception it raised. -/
structure WorkerRun where
  calls : List RemoteCall
  logs : List LogEvent
  result : Except PyErr (Option JVal)

/-- The lifecycle worker `RichHideMyEmail._generate_one`, lines 37-76.
`gen_res` is the response of `self.generate_email()`; `reserve` maps the
email passed to `self.reserve_email(email)` to its response.  A missing
response object is `none`; `if not res` is also true of an empty dict. -/
def generate_one (gen_res : Option Env) (reserve : JVal → Option Env) : WorkerRun :=
  match gen_res with
  | none => ⟨[.create], [], .ok none⟩
  | some g =>
    if g.isEmpty then ⟨[.create], [], .ok none⟩
    else if successFails g then
      ⟨[.create], [.genFailed (gen_err_msg g)], .ok none⟩
    else
      match getKey g "result" with
      | none => ⟨[.create], [], .error (.keyError "result")⟩
      | some r =>
        match objGet r "hme" with
        | .error e => ⟨[.create], [], .error e⟩
        | .ok email =>
          match reserve email with
          | none => ⟨[.create, .reserve email], [.genOk email], .ok none⟩
          | some rr =>
            if rr.isEmpty then ⟨[.create, .reserve email], [.genOk email], .ok none⟩
            else if successFails rr then
              ⟨[.create, .reserve email],
               [.genOk email, .reserveFailed email (reserve_err_msg rr)], .ok none⟩
            else
              ⟨[.create, .reserve email],
               [.genOk email, .reserveOk email], .ok (some email)⟩

/-- The reserve phase failed as the worker observes it at lines 61-73: no
response envelope, a falsy (empty) one, or one whose success check fails. -/
def reservePhaseFails : Option Env → Bool
  | none => true
  | some rr => rr.isEmpty || successFails rr

/-- Result of one run of the batch scheduler `_generate`. -/
structure BatchRun where
  workers : List WorkerRun
  result : Except PyErr (List JVal)

/-- The alias a finished worker contributed: its non-`None` return value
(`filter(lambda e: e is not None, ...)` at line 84 keeps exactly these). -/
def okAlias (w : WorkerRun) : Option JVal :=
  match w.result with
  | .ok (some v) => some v
  | _ => none

/-- The exception `asyncio.gather` re-raises, if any worker raised.  Which
raising worker's exception surfaces depends on completion order, which is
unspecified; we pick the first submitted one (a modelling choice no claim
depends on). -/
def firstError (ws : List WorkerRun) : Option PyErr :=
  ws.findSome? (fun w =>
    match w.result with
    | .error e => some e
    | .ok _ => none)

/-- The batch scheduler `RichHideMyEmail._generate`, lines 78-84: launch
`num` workers, gather in submission order, and filter out the `None`
results.  Worker `i` sees create response `genRes i` and reserve responses
`reserveRes i`. -/
def generateBatch (num : Nat) (genRes : Nat → Option Env)
    (reserveRes : Nat → JVal → Option Env) : BatchRun :=
  let ws := (List.range num).map (fun i => generate_one (genRes i) (reserveRes i))
  { workers := ws
    result :=
      match firstError ws with
      | some e => .error e
      | none => .ok (ws.filterMap okAlias) }

/-- Python `==` between a JSON value and a Python bool (line 153):
in Python `True == 1` and `False == 0`; other JSON values compare unequal
to a bool. -/
def pyEqBool : JVal → Bool → Bool
  | .bool b, a => b == a
  | .int n, a => n == (if a then (1 : Int) else 0)
  | _, _ => false

/-- Python `repr` of a JSON value, used for values nested in containers.
Strings render in single quotes (the corner case of a quote character inside
the string is not modelled). -/
def pyRepr : JVal → String
  | .null => "None"
  | .bool true => "True"
  | .bool false => "False"
  | .int n => toString n
  | .str s => "\x27" ++ s ++ "\x27"
  | .arr elems =>
    "[" ++ String.intercalate ", " (elems.attach.map (fun e => pyRepr e.1)) ++ "]"
  | .obj fields =>
    "\x7b" ++ String.intercalate ", "
      (fields.attach.map (fun kv => "\x27" ++ kv.1.1 ++ "\x27: " ++ pyRepr kv.1.2))
      ++ "\x7d"
termination_by v => sizeOf v
decreasing_by
  · have h := List.sizeOf_lt_of_mem e.2
    simp only [JVal.arr.sizeOf_spec]
    omega
  · have h := List.sizeOf_lt_of_mem kv.2
    obtain ⟨⟨a, b⟩, hm⟩ := kv
    simp only [Prod.mk.sizeOf_spec] at h
    simp only [JVal.obj.sizeOf_spec]
    omega

/-- Python `str()` as the f-string at line 152 applies it: strings render
unquoted, every other value as its repr. -/
def pyStr : JVal → String
  | .str s => s
  | v => pyRepr v

/-- Outcome of one run of the lister `list`: log events, rendered table
rows (label, address, creation time, status), the accumulated export lines
(`email_strings`, line 146), and the contents written to `emails.txt`
(`none` when the file is not written). -/
structure ListRun where
  logs : List LogEvent
  tableRows : List (JVal × JVal × String × String)
  emailStrings : List String
  written : Option String

/-- The creation-time conversion of lines 149-151:
`email["createTimestamp"] / 1000` raises `TypeError` unless the value is
numeric (a Python bool is an int under `/`, dividing as 1 or 0); `fmt`
abstracts the remaining `datetime.fromtimestamp(..).strftime(..)`, which
may itself raise on out-of-range timestamps (platform-dependent), so it is
fallible too. -/
def renderTimestamp (fmt : Int → Except PyErr String) :
    JVal → Except PyErr String
  | .int n => fmt n
  | .bool b => fmt (if b then 1 else 0)
  | _ => .error .typeError

/-- The per-record loop body of `list`, lines 147-160: compute the status
and creation time, append the export line, and add a table row when the
record passes the `active` filter and the optional label pattern.  The
creation time goes through `renderTimestamp`, so a non-numeric
`createTimestamp` raises `TypeError` before anything is written.  `search`
is the compiled pattern as a predicate (`re.search` truthiness); applying
it to a non-string label raises `TypeError`, as `re.search` does. -/
def processRecords (fmt : Int → Except PyErr String) (active : Bool)
    (search : Option (String → Bool)) :
    List JVal → Except PyErr (List String × List (JVal × JVal × String × String))
  | [] => .ok ([], [])
  | record :: rest => do
    let isAct ← objGet record "isActive"
    let status := if truthy isAct then "Active" else "Inactive"
    let ts ← objGet record "createTimestamp"
    let ctime ← renderTimestamp fmt ts
    let lbl ← objGet record "label"
    let hme ← objGet record "hme"
    let line := pyStr lbl ++ ";" ++ pyStr hme ++ ";" ++ ctime ++ ";" ++ status
    let rowOpt ←
      if pyEqBool isAct active then
        match search with
        | none => pure (some (lbl, hme, ctime, status))
        | some pat =>
          match lbl with
          | .str s => pure (if pat s then some (lbl, hme, ctime, status) else none)
          | _ => Except.error PyErr.typeError
      else pure none
    let (lines, rows) ← processRecords fmt active search rest
    return (line :: lines,
      match rowOpt with
      | some row => row :: rows
      | none => rows)

/-- The lister `RichHideMyEmail.list`, lines 122-164.  `listRes` is the
response of `self.list_email()`.  A non-array `hmeEmails` payload raises
`TypeError` when iterated.  The written file contents join the export lines
with `os.linesep` (a newline on the target platform). -/
def list_run (listRes : Option Env) (fmt : Int → Except PyErr String)
    (active : Bool)
    (search : Option (String → Bool)) : Except PyErr ListRun :=
  match listRes with
  | none => .ok ⟨[], [], [], none⟩
  | some g =>
    if g.isEmpty then .ok ⟨[], [], [], none⟩
    else if successFails g then .ok ⟨[.listFailed (list_err_msg g)], [], [], none⟩
    else do
      let r ←
        match getKey g "result" with
        | some r => Except.ok r
        | none => Except.error (PyErr.keyError "result")
      let hmeEmails ← objGet r "hmeEmails"
      let records ←
        match hmeEmails with
        | .arr elems => Except.ok elems
        | _ => Except.error PyErr.typeError
      let (lines, rows) ← processRecords fmt active search records
      return ⟨[], rows, lines, some (String.intercalate "\n" lines)⟩

/-- A fetched record shaped as the remote interface declares it:
`label` a string, `createTimestamp` an epoch-milliseconds integer, and
`hme`, `isActive` present.  A record with a non-numeric `createTimestamp`
is not well-formed: on it the program raises `TypeError` at line 150. -/
def recordOk : JVal → Bool
  | .obj fields =>
    (match getKey fields "label" with
     | some (.str _) => true
     | _ => false)
      && (getKey fields "hme").isSome
      && (getKey fields "isActive").isSome
      && (match getKey fields "createTimestamp" with
          | some (.int _) => true
          | _ => false)
  | _ => false

/-- Field access on a record with a `null` default, for stating what the
export line of a well-formed record contains. -/
def jfield (record : JVal) (k : String) : JVal :=
  match record with
  | .obj fields => (getKey fields k).getD .null
  | _ => .null

/-- The export line of one well-formed record, as built at line 152, under
a timestamp renderer that succeeds on integer timestamps. -/
def recLine (fmtOk : Int → String) (record : JVal) : String :=
  pyStr (jfield record "label") ++ ";" ++ pyStr (jfield record "hme") ++ ";"
    ++ (match jfield record "createTimestamp" with
        | .int n => fmtOk n
        | _ => "") ++ ";"
    ++ (if truthy (jfield record "isActive") then "Active" else "Inactive")

/-- Module-level constant, line 15. -/
def MAX_CONCURRENT_TASKS : Nat := 5

/-- Module-level constant, line 16 (seconds). -/
def SLEEP_INTERVAL : Nat := 30 * 60

/-- Module-level constant, line 17. -/
def COUNT_TO_GENERATE : Int := 20

/-- The inner wave loop of `generate`, lines 113-116: while `count > 0`,
request a wave of `MAX_CONCURRENT_TASKS` workers, append its result to
`emails`, and decrement `count` by `MAX_CONCURRENT_TASKS`.  `waveRes w` is
what `_generate` returned for the `w`-th wave of this cycle; `trace`
records, per iteration, the value of `count` at the loop head and the wave
size requested at line 114. -/
def innerWhile (waveRes : Nat → List JVal) (w : Nat) (emails : List JVal)
    (trace : List (Int × Nat)) (count : Int) : List JVal × List (Int × Nat) :=
  if 0 < count then
    innerWhile waveRes (w + 1) (emails ++ waveRes w)
      (trace ++ [(count, MAX_CONCURRENT_TASKS)])
      (count - (MAX_CONCURRENT_TASKS : Int))
  else (emails, trace)
termination_by count.toNat
decreasing_by simp_wf; simp only [MAX_CONCURRENT_TASKS]; omega

/-- One cycle of the outer loop of `generate`, lines 111-116:
`count = int(COUNT_TO_GENERATE)`, `emails = []`, then the inner wave loop.
Returns the collected emails and the per-iteration trace. -/
def runCycle (waveRes : Nat → List JVal) : List JVal × List (Int × Nat) :=
  innerWhile waveRes 0 [] [] COUNT_TO_GENERATE

/-- Program points of the `generate` coroutine, lines 106-120.  `returned`
is the coroutine having returned to its caller; the only `return` statement
is in the `KeyboardInterrupt` handler. -/
inductive GenState where
  | cycleStart (cycle : Nat)
  | innerStep (cycle : Nat) (wave : Nat) (count : Int) (emails : List JVal)
  | sleeping (cycle : Nat) (generated : Nat) (secs : Nat)
  | returned (value : List JVal)

/-- Small-step transition of the `generate` loop, lines 110-118.
`waveRes c w` is the batch result of wave `w` of cycle `c`.  Entering a
cycle resets `count` and `emails`; the inner step runs one wave; when the
countdown is exhausted the loop logs the report and sleeps `SLEEP_INTERVAL`
seconds; after sleeping the next cycle starts.  `while True` has no exit
transition, so no step yields `returned`. -/
def genStep (waveRes : Nat → Nat → List JVal) : GenState → GenState
  | .cycleStart c => .innerStep c 0 COUNT_TO_GENERATE []
  | .innerStep c w count emails =>
    if 0 < count then
      .innerStep c (w + 1) (count - (MAX_CONCURRENT_TASKS : Int))
        (emails ++ waveRes c w)
    else .sleeping c emails.length SLEEP_INTERVAL
  | .sleeping c _ _ => .cycleStart (c + 1)
  | .returned v => .returned v

/-- The `KeyboardInterrupt` handler of `generate`, lines 119-120: cancelling
the coroutine at any suspension point makes it return `[]`. -/
def generateOnInterrupt (_ : GenState) : GenState :=
  .returned []

/-- The handler at lines 119-120 emits no log line (no error report). -/
def generateInterruptLogs : List LogEvent := []

/-- `calls` entry is a create attempt. -/
def isCreate : RemoteCall → Bool
  | .create => true
  | _ => false

/-- `calls` entry is a reserve attempt. -/
def isReserve : RemoteCall → Bool
  | .reserve _ => true
  | _ => false

/-- The create phase of a worker succeeded: a truthy envelope came back and
its `success` check passed (lines 41-53). -/
def createPhaseOk : Option Env → Bool
  | none => false
  | some g => !g.isEmpty && !successFails g

/-- `n` steps of the `generate` loop from state `s`. -/
def genRun (waveRes : Nat → Nat → List JVal) (s : GenState) : Nat → GenState
  | 0 => s
  | n + 1 => genStep waveRes (genRun waveRes s n)

/-- Total create attempts issued by a batch. -/
def createCalls (b : BatchRun) : Nat :=
  (b.workers.map (fun w => (w.calls.filter isCreate).length)).sum

/-- Total reserve attempts issued by a batch. -/
def reserveCalls (b : BatchRun) : Nat :=
  (b.workers.map (fun w => (w.calls.filter isReserve).length)).sum

/-- Create responses in which every worker's create succeeds with address
`e<i>`. -/
def genResAllOk (i : Nat) : Option Env :=
  some [("success", .bool true),
        ("result", .obj [("hme", .str ("e" ++ toString i))])]

/-- Reserve responses in which workers 0, 1 and 2 succeed and the rest fail
with a structured error. -/
def reserveResPartial (i : Nat) (_ : JVal) : Option Env :=
  if i < 3 then some [("success", .bool true)]
  else some [("success", .bool false),
             ("error", .obj [("errorMessage", .str "quota")])]

/-- A concrete fetched collection of three well-formed records: one active
whose label contains "shop", two inactive. -/
def recordsDemo : List JVal :=
  [.obj [("label", .str "shop newsletter"), ("hme", .str "x1@icloud.com"),
         ("isActive", .bool true), ("createTimestamp", .int 1700000000000)],
   .obj [("label", .str "misc"), ("hme", .str "x2@icloud.com"),
         ("isActive", .bool false), ("createTimestamp", .int 1700000000001)],
   .obj [("label", .str "old"), ("hme", .str "x3@icloud.com"),
         ("isActive", .bool false), ("createTimestamp", .int 1700000000002)]]

/-- A successful list envelope carrying `recordsDemo`. -/
def listEnvDemo : Env :=
  [("success", .bool true), ("result", .obj [("hmeEmails", .arr recordsDemo)])]

/-- Outcome of the constructor's cookie loading, lines 28-35 of `main.py`. -/
structure CtorOutcome where
  cookies : Option String
  warned : Bool
deriving DecidableEq, Repr

/-- Python `str.startswith`, as a prefix test on the character sequences
(`String.startsWith` itself does not reduce in the kernel). -/
def pyStartsWith (l pre : String) : Bool :=
  pre.data.isPrefixOf l.data

/-- Cookie loading in `RichHideMyEmail.__init__`, lines 28-35:
`cookieFile` is `none` when `cookie.txt` does not exist, else the list of
its lines.  The code keeps the lines not starting with `"//"` and indexes
the filtered list at 0, which raises `IndexError` when it is empty; when the
file is absent it logs a warning and proceeds. -/
def loadCookies (cookieFile : Option (List String)) : Except PyErr CtorOutcome :=
  match cookieFile with
  | some lines =>
    match lines.filter (fun l => !pyStartsWith l "//") with
    | [] => .error .indexError
    | c :: _ => .ok ⟨some c, false⟩
  | none => .ok ⟨none, true⟩

/-! ## Loop lemmas -/

theorem innerWhile_pos (waveRes : Nat → List JVal) (w : Nat) (emails : List JVal)
    (trace : List (Int × Nat)) (count : Int) (h : 0 < count) :
    innerWhile waveRes w emails trace count =
      innerWhile waveRes (w + 1) (emails ++ waveRes w)
        (trace ++ [(count, MAX_CONCURRENT_TASKS)])
        (count - (MAX_CONCURRENT_TASKS : Int)) := by
  rw [innerWhile]
  simp [h]

theorem innerWhile_nonpos (waveRes : Nat → List JVal) (w : Nat)
    (emails : List JVal) (trace : List (Int × Nat)) (count : Int)
    (h : ¬ 0 < count) :
    innerWhile waveRes w emails trace count = (emails, trace) := by
  rw [innerWhile]
  simp [h]

/-- One poll cycle runs exactly four waves, with countdown values
20, 15, 10, 5 at the loop heads, each requesting `MAX_CONCURRENT_TASKS`
workers, and collects the concatenation of the four wave results. -/
theorem runCycle_eq (waveRes : Nat → List JVal) :
    runCycle waveRes =
      (waveRes 0 ++ waveRes 1 ++ waveRes 2 ++ waveRes 3,
       [((20 : Int), MAX_CONCURRENT_TASKS), (15, MAX_CONCURRENT_TASKS),
        (10, MAX_CONCURRENT_TASKS), (5, MAX_CONCURRENT_TASKS)]) := by
  unfold runCycle
  rw [innerWhile_pos _ _ _ _ _ (by decide)]
  rw [innerWhile_pos _ _ _ _ _ (by decide)]
  rw [innerWhile_pos _ _ _ _ _ (by decide)]
  rw [innerWhile_pos _ _ _ _ _ (by decide)]
  rw [innerWhile_nonpos _ _ _ _ _ (by decide)]
  simp only [Prod.mk.injEq]
  exact ⟨by simp, by decide⟩

/-! ## Claim theorems: poll loop -/

/-- C1: in every poll cycle the inner countdown drops by the concurrency
bound on each wave regardless of successes — the cycle always issues
exactly the four waves with countdowns 20, 15, 10, 5, whatever the wave
results are; a wave of 5 create attempts in which the last 2 reserve calls
fail yields a batch of exactly 3 aliases while the countdown still drops by
5; and a cycle in which every wave yields fewer than 5 aliases collects
fewer than `COUNT_TO_GENERATE` aliases, with no extra waves issued to
compensate. -/
theorem C1_countdown_ignores_successes :
    (∀ waveRes : Nat → List JVal,
        (runCycle waveRes).2 =
          [((20 : Int), MAX_CONCURRENT_TASKS), (15, MAX_CONCURRENT_TASKS),
           (10, MAX_CONCURRENT_TASKS), (5, MAX_CONCURRENT_TASKS)])
    ∧ (∃ l, (generateBatch 5 genResAllOk reserveResPartial).result = .ok l
        ∧ l.length = 3)
    ∧ (∀ waveRes : Nat → List JVal,
        (∀ w, (waveRes w).length < MAX_CONCURRENT_TASKS) →
        ((runCycle waveRes).1).length < COUNT_TO_GENERATE.toNat) := by
  refine ⟨fun waveRes => by rw [runCycle_eq], ?_, ?_⟩
  · exact ⟨[.str "e0", .str "e1", .str "e2"], rfl, rfl⟩
  · intro waveRes h
    rw [runCycle_eq]
    have h0 := h 0
    have h1 := h 1
    have h2 := h 2
    have h3 := h 3
    simp only [MAX_CONCURRENT_TASKS] at h0 h1 h2 h3
    simp only [COUNT_TO_GENERATE, List.length_append]
    omega

/-- C1 witness: a run whose every wave produces no alias collects fewer
than the target total. -/
theorem C1_witness :
    ((runCycle (fun _ => [])).1).length < COUNT_TO_GENERATE.toNat :=
  C1_countdown_ignores_successes.2.2 (fun _ => [])
    (fun _ => by norm_num [MAX_CONCURRENT_TASKS])

/-- C7: at every inner iteration of the poll loop, the wave requested from
the batch scheduler has size `min(concurrencyBound, remaining)` where
`remaining` is the countdown value at the loop head. -/
theorem C7_wave_size_is_min (waveRes : Nat → List JVal) (remaining : Int)
    (req : Nat) (h : (remaining, req) ∈ (runCycle waveRes).2) :
    (req : Int) = min (MAX_CONCURRENT_TASKS : Int) remaining := by
  rw [runCycle_eq] at h
  simp only [List.mem_cons, List.not_mem_nil, or_false, Prod.mk.injEq] at h
  rcases h with ⟨h1, h2⟩ | ⟨h1, h2⟩ | ⟨h1, h2⟩ | ⟨h1, h2⟩ <;>
    subst h1 <;> subst h2 <;> decide

/-- C7 witness: the first iteration has countdown 20 and requests
`min(5, 20) = 5` workers. -/
theorem C7_witness :
    ((MAX_CONCURRENT_TASKS : Nat) : Int) = min (MAX_CONCURRENT_TASKS : Int) 20 :=
  C7_wave_size_is_min (fun _ => []) 20 MAX_CONCURRENT_TASKS
    (by rw [runCycle_eq]; decide)

/-- C6: the poll loop never returns normally — no transition of the
`generate` state machine enters `returned` from a live state; from the top
of any cycle, six steps run the four waves and reach the sleep of
`SLEEP_INTERVAL` seconds, and the next step starts the following cycle;
the only exit is the external-interrupt handler, which returns `[]` and
emits no error report. -/
theorem C6_loop_never_returns :
    (∀ (waveRes : Nat → Nat → List JVal) (s : GenState) (v : List JVal),
        genStep waveRes s = .returned v → s = .returned v)
    ∧ (∀ (waveRes : Nat → Nat → List JVal) (c : Nat),
        ∃ g, genRun waveRes (.cycleStart c) 6 = .sleeping c g SLEEP_INTERVAL
          ∧ genRun waveRes (.cycleStart c) 7 = .cycleStart (c + 1))
    ∧ (∀ s, generateOnInterrupt s = .returned [])
    ∧ generateInterruptLogs = [] := by
  refine ⟨?_, ?_, fun s => rfl, rfl⟩
  · intro waveRes s v h
    cases s with
    | cycleStart c => simp [genStep] at h
    | innerStep c w count emails =>
      simp only [genStep] at h
      split at h <;> simp at h
    | sleeping c g secs => simp [genStep] at h
    | returned v2 =>
      simp only [genStep, GenState.returned.injEq] at h
      rw [h]
  · intro waveRes c
    exact ⟨_, rfl, rfl⟩

/-- C6 witness: the no-normal-return transition lemma applied at a concrete
state. -/
theorem C6_witness : GenState.returned ([] : List JVal) = .returned [] :=
  C6_loop_never_returns.1 (fun _ _ => []) (.returned []) [] rfl

/-! ## Worker lemmas -/

/-- A worker's call trace is a single create attempt, possibly followed by
a single reserve attempt. -/
theorem generate_one_calls (g : Option Env) (r : JVal → Option Env) :
    (generate_one g r).calls = [RemoteCall.create]
      ∨ ∃ e, (generate_one g r).calls = [RemoteCall.create, RemoteCall.reserve e] := by
  cases g with
  | none => exact Or.inl rfl
  | some genv =>
    simp only [generate_one]
    repeat' split
    all_goals first
      | exact Or.inl rfl
      | exact Or.inr ⟨_, rfl⟩

/-- A worker issues a reserve attempt only when its create phase
succeeded. -/
theorem generate_one_reserve_needs_create (g : Option Env)
    (r : JVal → Option Env) (e : JVal)
    (h : RemoteCall.reserve e ∈ (generate_one g r).calls) :
    createPhaseOk g = true := by
  cases g with
  | none => simp [generate_one] at h
  | some genv =>
    by_cases he : genv.isEmpty
    · simp [generate_one, he] at h
    · by_cases hs : successFails genv
      · simp [generate_one, he, hs] at h
      · simp [createPhaseOk, he, hs]

/-- Every worker issues exactly one create attempt. -/
theorem generate_one_one_create (g : Option Env) (r : JVal → Option Env) :
    ((generate_one g r).calls.filter isCreate).length = 1 := by
  rcases generate_one_calls g r with h | ⟨e, h⟩ <;> simp [h, isCreate]

/-- Every worker issues at most one reserve attempt. -/
theorem generate_one_le_one_reserve (g : Option Env) (r : JVal → Option Env) :
    ((generate_one g r).calls.filter isReserve).length ≤ 1 := by
  rcases generate_one_calls g r with h | ⟨e, h⟩ <;> simp [h, isReserve]

/-- A worker returns an alias only when both its create phase and its
reserve phase succeeded. -/
theorem generate_one_ok_some (g : Option Env) (r : JVal → Option Env) (e : JVal)
    (h : (generate_one g r).result = .ok (some e)) :
    createPhaseOk g = true ∧ reservePhaseFails (r e) = false := by
  cases g with
  | none => simp [generate_one] at h
  | some genv =>
    by_cases h1 : genv.isEmpty
    · simp [generate_one, h1] at h
    · by_cases h2 : successFails genv
      · simp [generate_one, h1, h2] at h
      · rcases h3 : getKey genv "result" with _ | res
        · simp [generate_one, h1, h2, h3] at h
        · rcases h4 : objGet res "hme" with err | email
          · simp [generate_one, h1, h2, h3, h4] at h
          · rcases h5 : r email with _ | rr
            · simp [generate_one, h1, h2, h3, h4, h5] at h
            · by_cases h6 : rr.isEmpty
              · simp [generate_one, h1, h2, h3, h4, h5, h6] at h
              · by_cases h7 : successFails rr
                · simp [generate_one, h1, h2, h3, h4, h5, h6, h7] at h
                · simp only [generate_one, h1, h2, h3, h4, h5, h6, h7,
                    Bool.false_eq_true, if_false, Except.ok.injEq,
                    Option.some.injEq] at h
                  subst h
                  simp [createPhaseOk, reservePhaseFails, h1, h2, h5, h6, h7]

theorem list_sum_map_one {α : Type} (f : α → Nat) :
    ∀ l : List α, (∀ x ∈ l, f x = 1) → (l.map f).sum = l.length := by
  intro l
  induction l with
  | nil => intro _; rfl
  | cons x xs ih =>
    intro h
    simp only [List.map_cons, List.sum_cons, List.length_cons,
      ih (fun y hy => h y (List.mem_cons_of_mem x hy)),
      h x (List.mem_cons_self x xs)]
    omega

theorem list_sum_map_le_one {α : Type} (f : α → Nat) :
    ∀ l : List α, (∀ x ∈ l, f x ≤ 1) → (l.map f).sum ≤ l.length := by
  intro l
  induction l with
  | nil => intro _; exact Nat.le_refl 0
  | cons x xs ih =>
    intro h
    simp only [List.map_cons, List.sum_cons, List.length_cons]
    have h1 := h x (List.mem_cons_self x xs)
    have h2 := ih (fun y hy => h y (List.mem_cons_of_mem x hy))
    omega

/-! ## Claim theorems: batch scheduler and worker -/

/-- C2: for every `n ≤ MAX_CONCURRENT_TASKS`, `generateBatch n` launches
`n` workers that issue exactly `n` create attempts and at most `n` reserve
attempts; a worker issues a reserve attempt only when its create phase
succeeded; a worker returns an alias only when its reserve phase also
succeeded; and when no worker raises, the returned list is the non-`None`
worker results in submission order, hence between 0 and `n` aliases. -/
theorem C2_batch_attempt_counts (n : Nat) (genRes : Nat → Option Env)
    (reserveRes : Nat → JVal → Option Env) (_hn : n ≤ MAX_CONCURRENT_TASKS) :
    (generateBatch n genRes reserveRes).workers.length = n
    ∧ createCalls (generateBatch n genRes reserveRes) = n
    ∧ reserveCalls (generateBatch n genRes reserveRes) ≤ n
    ∧ (∀ i w, (generateBatch n genRes reserveRes).workers[i]? = some w →
        (∃ e, RemoteCall.reserve e ∈ w.calls) →
        createPhaseOk (genRes i) = true)
    ∧ (∀ i w e, (generateBatch n genRes reserveRes).workers[i]? = some w →
        okAlias w = some e →
        createPhaseOk (genRes i) = true
          ∧ reservePhaseFails (reserveRes i e) = false)
    ∧ (∀ l, (generateBatch n genRes reserveRes).result = .ok l →
        l.length ≤ n
          ∧ l = (generateBatch n genRes reserveRes).workers.filterMap okAlias) := by
  have hworkers : (generateBatch n genRes reserveRes).workers =
      (List.range n).map (fun i => generate_one (genRes i) (reserveRes i)) := rfl
  have hlen : (generateBatch n genRes reserveRes).workers.length = n := by
    rw [hworkers]; simp
  have hget : ∀ i w, (generateBatch n genRes reserveRes).workers[i]? = some w →
      w = generate_one (genRes i) (reserveRes i) := by
    intro i w hw
    rw [hworkers] at hw
    rcases Nat.lt_or_ge i n with hi | hi
    · rw [List.getElem?_map, List.getElem?_range hi] at hw
      simpa using hw.symm
    · rw [List.getElem?_map, List.getElem?_eq_none (by simpa using hi)] at hw
      simp at hw
  refine ⟨hlen, ?_, ?_, ?_, ?_, ?_⟩
  · unfold createCalls
    rw [list_sum_map_one _ _ ?_, hlen]
    intro w hw
    rw [hworkers] at hw
    obtain ⟨i, _, hweq⟩ := List.mem_map.mp hw
    rw [← hweq]
    exact generate_one_one_create _ _
  · unfold reserveCalls
    calc ((generateBatch n genRes reserveRes).workers.map
          (fun w => (w.calls.filter isReserve).length)).sum
        ≤ (generateBatch n genRes reserveRes).workers.length := by
          apply list_sum_map_le_one
          intro w hw
          rw [hworkers] at hw
          obtain ⟨i, _, hweq⟩ := List.mem_map.mp hw
          rw [← hweq]
          exact generate_one_le_one_reserve _ _
      _ = n := hlen
  · intro i w hw ⟨e, he⟩
    rw [hget i w hw] at he
    exact generate_one_reserve_needs_create _ _ e he
  · intro i w e hw hok
    rw [hget i w hw] at hok
    unfold okAlias at hok
    apply generate_one_ok_some
    revert hok
    split
    · intro hok
      rename_i heq
      rw [heq]
      simpa using hok
    · intro hok
      simp at hok
  · intro l hl
    have hres : (generateBatch n genRes reserveRes).result =
        match firstError ((List.range n).map
            (fun i => generate_one (genRes i) (reserveRes i))) with
        | some e => Except.error e
        | none => Except.ok (((List.range n).map
            (fun i => generate_one (genRes i) (reserveRes i))).filterMap okAlias) :=
      rfl
    rw [hres] at hl
    revert hl
    split
    · intro hl; simp at hl
    · intro hl
      simp only [Except.ok.injEq] at hl
      subst hl
      refine ⟨?_, rfl⟩
      have hle := List.length_filterMap_le okAlias
        ((List.range n).map (fun i => generate_one (genRes i) (reserveRes i)))
      simpa using hle

/-- C2 witness: a batch of 5 workers in which the last two reserve calls
fail. -/
theorem C2_witness :
    (generateBatch 5 genResAllOk reserveResPartial).workers.length = 5
    ∧ createCalls (generateBatch 5 genResAllOk reserveResPartial) = 5
    ∧ reserveCalls (generateBatch 5 genResAllOk reserveResPartial) ≤ 5
    ∧ (∀ i w, (generateBatch 5 genResAllOk reserveResPartial).workers[i]? = some w →
        (∃ e, RemoteCall.reserve e ∈ w.calls) →
        createPhaseOk (genResAllOk i) = true)
    ∧ (∀ i w e,
        (generateBatch 5 genResAllOk reserveResPartial).workers[i]? = some w →
        okAlias w = some e →
        createPhaseOk (genResAllOk i) = true
          ∧ reservePhaseFails (reserveResPartial i e) = false)
    ∧ (∀ l, (generateBatch 5 genResAllOk reserveResPartial).result = .ok l →
        l.length ≤ 5
          ∧ l = (generateBatch 5 genResAllOk reserveResPartial).workers.filterMap
              okAlias) :=
  C2_batch_attempt_counts 5 genResAllOk reserveResPartial (by decide)

/-- C3: the dual-shape error-extraction rule: an integer `error` with a
sibling `reason` field yields the reason; an object `error` containing
`errorMessage` yields that field; every other case — a missing `error`
field included — yields the literal string `"Unknown"`; and the extraction
at the reserve and list call sites is the same function as at the create
site. -/
theorem C3_dual_shape_extraction :
    (∀ (env : Env) (n : Int) (r : JVal),
        getKey env "error" = some (.int n) → getKey env "reason" = some r →
        gen_err_msg env = r)
    ∧ (∀ (env : Env) (fields : List (String × JVal)) (m : JVal),
        getKey env "error" = some (.obj fields) →
        getKey fields "errorMessage" = some m →
        gen_err_msg env = m)
    ∧ (∀ env : Env,
        (∀ n : Int, getKey env "error" = some (.int n) →
          getKey env "reason" = none) →
        (∀ fields, getKey env "error" = some (.obj fields) →
          getKey fields "errorMessage" = none) →
        gen_err_msg env = .str "Unknown")
    ∧ reserve_err_msg = gen_err_msg
    ∧ list_err_msg = gen_err_msg := by
  refine ⟨?_, ?_, ?_, rfl, rfl⟩
  · intro env n r he hr
    simp [gen_err_msg, he, hr, isPyInt]
  · intro env fields m he hm
    simp [gen_err_msg, he, hm, isPyInt, isPyDict]
  · intro env h1 h2
    rcases he : getKey env "error" with _ | v
    · simp [gen_err_msg, he, isPyInt, isPyDict, getKey]
    · cases v with
      | null => simp [gen_err_msg, he, isPyInt, isPyDict]
      | bool b => simp [gen_err_msg, he, isPyInt, isPyDict]
      | int n => simp [gen_err_msg, he, h1 n he, isPyInt, isPyDict]
      | str s => simp [gen_err_msg, he, isPyInt, isPyDict]
      | arr elems => simp [gen_err_msg, he, isPyInt, isPyDict]
      | obj fields => simp [gen_err_msg, he, h2 fields he, isPyInt, isPyDict]

/-- C3 witness: an integer error code with a sibling reason. -/
theorem C3_witness :
    gen_err_msg [("error", .int 500), ("reason", .str "busy")] = .str "busy" :=
  C3_dual_shape_extraction.1 _ 500 (.str "busy") rfl rfl

/-- C4: when the create phase succeeds (truthy envelope passing the success
check, with `result.hme` present) and the reserve phase fails (no reserve
envelope, a falsy one, or one failing the success check), the worker
returns `None` — no partial alias — and its call trace is exactly one
create attempt followed by one reserve attempt, so neither phase is
retried. -/
theorem C4_reserve_failure_returns_nothing (g : Env) (r : JVal → Option Env)
    (res e : JVal)
    (hne : g.isEmpty = false) (hs : successFails g = false)
    (hres : getKey g "result" = some res) (hhme : objGet res "hme" = .ok e)
    (hfail : reservePhaseFails (r e) = true) :
    (generate_one (some g) r).result = .ok none
    ∧ (generate_one (some g) r).calls =
        [RemoteCall.create, RemoteCall.reserve e] := by
  rcases hre : r e with _ | rr
  · simp [generate_one, hne, hs, hres, hhme, hre]
  · rw [hre] at hfail
    simp only [reservePhaseFails] at hfail
    by_cases h1 : rr.isEmpty
    · simp [generate_one, hne, hs, hres, hhme, hre, h1]
    · have h2 : successFails rr = true := by
        simp [h1] at hfail
        exact hfail
      simp [generate_one, hne, hs, hres, hhme, hre, h1, h2]

/-- C4 witness: a successful create followed by a reserve envelope whose
success flag is false. -/
theorem C4_witness :
    (generate_one
        (some [("success", .bool true),
               ("result", .obj [("hme", .str "a@icloud.com")])])
        (fun _ => some [("success", .bool false)])).result = .ok none
    ∧ (generate_one
        (some [("success", .bool true),
               ("result", .obj [("hme", .str "a@icloud.com")])])
        (fun _ => some [("success", .bool false)])).calls =
        [RemoteCall.create, RemoteCall.reserve (.str "a@icloud.com")] :=
  C4_reserve_failure_returns_nothing _ _ (.obj [("hme", .str "a@icloud.com")])
    (.str "a@icloud.com") rfl rfl rfl rfl rfl

theorem except_bind_ok {ε α β : Type} (a : α) (f : α → Except ε β) :
    (Except.ok a >>= f : Except ε β) = f a := rfl

theorem except_bind_error {ε α β : Type} (e : ε) (f : α → Except ε β) :
    (Except.error e >>= f : Except ε β) = Except.error e := rfl

theorem except_map_ok {ε α β : Type} (a : α) (f : α → β) :
    (f <$> (Except.ok a : Except ε α)) = Except.ok (f a) := rfl

theorem except_map_error {ε α β : Type} (e : ε) (f : α → β) :
    (f <$> (Except.error e : Except ε α)) = Except.error e := rfl

theorem except_pure_eq_ok {ε α : Type} (a : α) :
    (pure a : Except ε α) = Except.ok a := rfl

/-- C9: the worker's exception-freedom is conditional on well-formed
success envelopes: a create envelope that passes the success check but
lacks `result` makes the worker raise `KeyError "result"` instead of
returning nothing, and one whose `result` object lacks `hme` raises
`KeyError "hme"`; likewise the lister raises on a success envelope lacking
`result`, or whose result object lacks `hmeEmails`. -/
theorem C9_success_envelope_must_be_wellformed :
    (∀ (g : Env) (r : JVal → Option Env),
        g.isEmpty = false → successFails g = false →
        getKey g "result" = none →
        (generate_one (some g) r).result = .error (.keyError "result"))
    ∧ (∀ (g : Env) (r : JVal → Option Env) (fields : List (String × JVal)),
        g.isEmpty = false → successFails g = false →
        getKey g "result" = some (.obj fields) →
        getKey fields "hme" = none →
        (generate_one (some g) r).result = .error (.keyError "hme"))
    ∧ (∀ (g : Env) (fmt : Int → Except PyErr String) (active : Bool)
        (search : Option (String → Bool)),
        g.isEmpty = false → successFails g = false →
        getKey g "result" = none →
        list_run (some g) fmt active search = .error (.keyError "result"))
    ∧ (∀ (g : Env) (fmt : Int → Except PyErr String) (active : Bool)
        (search : Option (String → Bool)) (fields : List (String × JVal)),
        g.isEmpty = false → successFails g = false →
        getKey g "result" = some (.obj fields) →
        getKey fields "hmeEmails" = none →
        list_run (some g) fmt active search = .error (.keyError "hmeEmails")) := by
  refine ⟨?_, ?_, ?_, ?_⟩
  · intro g r h1 h2 h3
    simp [generate_one, h1, h2, h3]
  · intro g r fields h1 h2 h3 h4
    simp [generate_one, objGet, h1, h2, h3, h4]
  · intro g fmt active search h1 h2 h3
    simp [list_run, h1, h2, h3, except_bind_ok, except_bind_error,
      except_map_error]
  · intro g fmt active search fields h1 h2 h3 h4
    simp [list_run, objGet, h1, h2, h3, h4, except_bind_ok, except_bind_error,
      except_map_error]

/-- C9 witness: a success envelope with no `result` object makes the
worker raise `KeyError "result"`. -/
theorem C9_witness :
    (generate_one (some [("success", .bool true)])
        (fun _ => none)).result = .error (.keyError "result") :=
  C9_success_envelope_must_be_wellformed.1 [("success", .bool true)]
    (fun _ => none) rfl rfl rfl

/-! ## Claim theorems: constructor and lister -/

/-- C10: when the cookie file exists but every line starts with `//` (an
empty file included), indexing the filtered line list raises `IndexError`,
so construction fails with an exception; the warn-and-proceed outcome
happens exactly when the file is absent. -/
theorem C10_cookie_file_all_comments_raises :
    (∀ lines : List String, (∀ l ∈ lines, pyStartsWith l "//" = true) →
        loadCookies (some lines) = .error .indexError)
    ∧ loadCookies none = .ok ⟨none, true⟩
    ∧ (∀ (lines : List String) (o : CtorOutcome),
        loadCookies (some lines) = .ok o → o.warned = false) := by
  refine ⟨?_, rfl, ?_⟩
  · intro lines h
    have hf : lines.filter (fun l => !pyStartsWith l "//") = [] := by
      rw [List.filter_eq_nil_iff]
      intro a ha
      simp [h a ha]
    simp [loadCookies, hf]
  · intro lines o h
    simp only [loadCookies] at h
    revert h
    split
    · intro h; simp at h
    · intro h
      simp only [Except.ok.injEq] at h
      rw [← h]

/-- C10 witness: a cookie file holding a single comment line raises. -/
theorem C10_witness :
    loadCookies (some ["// session cookie below"]) = .error .indexError :=
  C10_cookie_file_all_comments_raises.1 ["// session cookie below"]
    (by intro l hl; simp only [List.mem_singleton] at hl; rw [hl]; decide)

/-- C8 counterexample: when the list fetch yields no response envelope the
lister returns without writing, but also without logging any message —
contradicting the claim that every failing fetch logs the extracted error
message. -/
theorem C8_counterexample :
    list_run none (fun _ => .ok "") true none =
      .ok { logs := [], tableRows := [], emailStrings := [], written := none } :=
  rfl

/-- C8 (amended): a failing list fetch never writes the export file; an
envelope failing the success check is logged with the extracted message,
while a missing or empty (falsy) envelope makes the lister return silently
with no log at all. -/
theorem C8_failed_fetch_no_write (fmt : Int → Except PyErr String)
    (active : Bool)
    (search : Option (String → Bool)) :
    list_run none fmt active search = .ok ⟨[], [], [], none⟩
    ∧ list_run (some []) fmt active search = .ok ⟨[], [], [], none⟩
    ∧ (∀ g : Env, g.isEmpty = false → successFails g = true →
        list_run (some g) fmt active search =
          .ok ⟨[.listFailed (list_err_msg g)], [], [], none⟩) := by
  refine ⟨rfl, rfl, ?_⟩
  intro g h1 h2
  simp [list_run, h1, h2]

/-- C8 witness: a list envelope whose success flag is false is logged with
its extracted message and nothing is written. -/
theorem C8_witness :
    list_run (some [("success", .bool false)]) (fun _ => .ok "") true none =
      .ok ⟨[.listFailed (list_err_msg [("success", .bool false)])], [], [], none⟩ :=
  (C8_failed_fetch_no_write (fun _ => .ok "") true none).2.2
    [("success", .bool false)] rfl rfl

/-- Processing a list of well-formed records never raises, and the export
lines are one `recLine` per record in fetch order, whatever the filter
arguments are. -/
theorem processRecords_wellformed (fmtOk : Int → String) (active : Bool)
    (search : Option (String → Bool)) :
    ∀ records : List JVal, (∀ x ∈ records, recordOk x = true) →
      ∃ rows, processRecords (fun n => Except.ok (fmtOk n)) active search records =
        .ok (records.map (recLine fmtOk), rows) := by
  intro records
  induction records with
  | nil => intro _; exact ⟨[], rfl⟩
  | cons record rest ih =>
    intro h
    obtain ⟨rows, hrest⟩ := ih (fun x hx => h x (List.mem_cons_of_mem _ hx))
    have hr := h record (List.mem_cons_self _ _)
    cases record with
    | null => simp [recordOk] at hr
    | bool b => simp [recordOk] at hr
    | int n => simp [recordOk] at hr
    | str s => simp [recordOk] at hr
    | arr elems => simp [recordOk] at hr
    | obj fields =>
      simp only [recordOk, Bool.and_eq_true] at hr
      obtain ⟨⟨⟨hlab, hhme⟩, hact⟩, hts⟩ := hr
      rcases hh : getKey fields "hme" with _ | hv
      · rw [hh] at hhme; simp at hhme
      rcases ha : getKey fields "isActive" with _ | av
      · rw [ha] at hact; simp at hact
      rcases ht : getKey fields "createTimestamp" with _ | tv
      · rw [ht] at hts; simp at hts
      rw [ht] at hts
      rcases hl : getKey fields "label" with _ | lv
      · rw [hl] at hlab; simp at hlab
      rw [hl] at hlab
      cases tv with
      | null => simp at hts
      | bool b => simp at hts
      | str s2 => simp at hts
      | arr elems => simp at hts
      | obj fs => simp at hts
      | int tn =>
        cases lv with
        | null => simp at hlab
        | bool b => simp at hlab
        | int n => simp at hlab
        | arr elems => simp at hlab
        | obj fs => simp at hlab
        | str s =>
          by_cases hmatch : pyEqBool av active = true
          · cases search with
            | none =>
              refine ⟨(JVal.str s, hv, fmtOk tn,
                if truthy av then "Active" else "Inactive") :: rows, ?_⟩
              simp [processRecords, objGet, renderTimestamp, hl, hh, ha, ht,
                hmatch, hrest, except_bind_ok, except_bind_error,
                except_pure_eq_ok, recLine, jfield]
            | some pat =>
              by_cases hp : pat s = true
              · refine ⟨(JVal.str s, hv, fmtOk tn,
                  if truthy av then "Active" else "Inactive") :: rows, ?_⟩
                simp [processRecords, objGet, renderTimestamp, hl, hh, ha, ht,
                  hmatch, hp, hrest, except_bind_ok, except_bind_error,
                  except_pure_eq_ok, recLine, jfield]
              · refine ⟨rows, ?_⟩
                simp [processRecords, objGet, renderTimestamp, hl, hh, ha, ht,
                  hmatch, hp, hrest, except_bind_ok, except_bind_error,
                  except_pure_eq_ok, recLine, jfield]
          · refine ⟨rows, ?_⟩
            simp [processRecords, objGet, renderTimestamp, hl, hh, ha, ht,
              hmatch, hrest, except_bind_ok, except_bind_error,
              except_pure_eq_ok, recLine, jfield]

/-- C5: for a successful fetch of records shaped as the remote interface
declares them (`label` a string, `createTimestamp` an epoch-ms integer,
`hme` and `isActive` present — a record with a non-numeric timestamp makes
the program raise at line 150 instead), and a timestamp renderer `fmtOk`
that succeeds on integer timestamps, the export contents are one line per
fetched record in fetch order, written independently of the filter
arguments: two runs with different `active`/`search` arguments write
identical file contents, and the export line count equals the fetched
record count (while the rendered table may hold fewer rows). -/
theorem C5_export_independent_of_filters (g : Env) (fmtOk : Int → String)
    (rfields : List (String × JVal)) (records : List JVal)
    (a1 a2 : Bool) (s1 s2 : Option (String → Bool))
    (hne : g.isEmpty = false) (hsc : successFails g = false)
    (hres : getKey g "result" = some (.obj rfields))
    (hemails : getKey rfields "hmeEmails" = some (.arr records))
    (hwf : ∀ x ∈ records, recordOk x = true) :
    ∃ out1 out2,
      list_run (some g) (fun n => Except.ok (fmtOk n)) a1 s1 = .ok out1
      ∧ list_run (some g) (fun n => Except.ok (fmtOk n)) a2 s2 = .ok out2
      ∧ out1.written = out2.written
      ∧ out1.emailStrings = records.map (recLine fmtOk)
      ∧ out2.emailStrings = records.map (recLine fmtOk)
      ∧ out1.emailStrings.length = records.length
      ∧ out1.written =
          some (String.intercalate "\n" (records.map (recLine fmtOk))) := by
  obtain ⟨rows1, h1⟩ := processRecords_wellformed fmtOk a1 s1 records hwf
  obtain ⟨rows2, h2⟩ := processRecords_wellformed fmtOk a2 s2 records hwf
  refine ⟨⟨[], rows1, records.map (recLine fmtOk),
      some (String.intercalate "\n" (records.map (recLine fmtOk)))⟩,
    ⟨[], rows2, records.map (recLine fmtOk),
      some (String.intercalate "\n" (records.map (recLine fmtOk)))⟩,
    ?_, ?_, rfl, rfl, rfl, by simp, rfl⟩
  · simp [list_run, hne, hsc, hres, hemails, objGet, h1,
      except_bind_ok, except_bind_error, except_map_ok]
  · simp [list_run, hne, hsc, hres, hemails, objGet, h2,
      except_bind_ok, except_bind_error, except_map_ok]

/-- C5 witness: the same three fetched records run once with
`(active, pattern)` and once with `(inactive, no pattern)` export the same
three lines. -/
theorem C5_witness :
    ∃ out1 out2,
      list_run (some listEnvDemo) (fun _ => Except.ok "t") true
          (some (fun _ => true)) = .ok out1
      ∧ list_run (some listEnvDemo) (fun _ => Except.ok "t") false none
          = .ok out2
      ∧ out1.written = out2.written
      ∧ out1.emailStrings = recordsDemo.map (recLine (fun _ => "t"))
      ∧ out2.emailStrings = recordsDemo.map (recLine (fun _ => "t"))
      ∧ out1.emailStrings.length = recordsDemo.length
      ∧ out1.written =
          some (String.intercalate "\n"
            (recordsDemo.map (recLine (fun _ => "t")))) :=
  C5_export_independent_of_filters listEnvDemo (fun _ => "t")
    [("hmeEmails", .arr recordsDemo)] recordsDemo true false
    (some (fun _ => true)) none rfl rfl rfl rfl (by decide)

/-- Fidelity of the error path the renderer exposes: a fetched record whose
`createTimestamp` is a string makes the lister raise `TypeError` at the
division of line 150, so nothing is written. -/
theorem list_run_nonnumeric_timestamp_raises :
    list_run
      (some [("success", .bool true),
             ("result", .obj [("hmeEmails", .arr
               [.obj [("label", .str "a"), ("hme", .str "b"),
                      ("isActive", .bool true),
                      ("createTimestamp", .str "oops")]])])])
      (fun n => .ok (toString n)) true none = .error .typeError :=
  rfl

end HideMyEmail
